import Mathlib

/-!
Verification development for the `xarray_cdl` repository: a bidirectional
translator between the UCAR Common Data Language (CDL) textual notation and an
in-memory dataset model.

The development shallowly embeds the three source files:
* `src/xarray_cdl/dumps.py`   — the serializer (`dumps`, `_format_value`,
  `_format_data_array`, `_get_dtype_string`);
* `src/xarray_cdl/parser.py`  — the EBNF grammar for CDL, used with the `lark`
  library (LALR, contextual lexer).  The grammar itself is data; we embed the
  concrete syntax trees lark builds for it (anonymous string-literal tokens are
  filtered out of the tree, `[x]` maybe-items become `None` placeholders,
  `?rule` trees with exactly one child are inlined), together with an
  executable tokenizer/parser producing those trees;
* `src/xarray_cdl/generate.py` — the tree reducer (`DatasetVisitor`, a
  `lark.Visitor` whose visit order is the reverse of a breadth-first
  enumeration of subtrees, i.e. bottom-up), the assembler
  (`DatasetVisitor.generate_dataset`) and the public entry point
  `cdl_to_dataset`.

Python machine floats are idealised as exact rationals (`ℚ`); `numpy`'s fill
value semantics (`np.zeros`), flattened row-major overlay (`arr.ravel()`),
and Python's exception kinds are modelled explicitly.  Fallible code returns
`Except PyError`.
-/

deriving instance DecidableEq for Except

namespace Cdl

/-- Python exception kinds that the embedded code can raise.  `referenceErr`
never occurs in the source; it is included because the specification names
`ReferenceError` as an expected failure kind and the theorems below compare
the actual kinds against it. -/
inductive PyError where
  | synErr (msg : String)
  | referenceErr
  | assertionErr
  | keyErr (k : String)
  | valueErr (msg : String)
  | typeErr (msg : String)
  | attributeErr (msg : String)
  | indexErr
  deriving DecidableEq, Repr

/-- Python scalar values as they occur in this code base: strings, ints,
floats (idealised as rationals), the distinguished not-a-number float, and
booleans.  In Python `bool` is a subclass of `int`; the embedding keeps a
separate constructor and models the subclassing explicitly where the source
relies on it (`isinstance(value, (int, float))` is true for booleans). -/
inductive PyVal where
  | pstr (s : String)
  | pint (n : ℤ)
  | pfloat (q : ℚ)
  | pnan
  | pbool (b : Bool)
  deriving DecidableEq, Repr

/-- numpy dtypes appearing in the data model. -/
inductive Dtype where
  | float32
  | float64
  | int32
  | int64
  | uint32
  | boolean
  | unicode
  | pyobject
  deriving DecidableEq, Repr

/-- `str(dtype)` for the modelled numpy dtypes (`str(np.dtype('<U8'))` is
`"<U8"`, not `"str..."`). -/
def dtypeName : Dtype → String
  | .float32 => "float32"
  | .float64 => "float64"
  | .int32 => "int32"
  | .int64 => "int64"
  | .uint32 => "uint32"
  | .boolean => "bool"
  | .unicode => "<U8"
  | .pyobject => "object"

/-- One xarray variable: ordered dimension names, dtype, flattened (row-major)
data buffer, and its insertion-ordered attribute mapping. -/
structure XVar where
  dims : List String
  dtype : Dtype
  data : List PyVal
  attrs : List (String × PyVal)
  deriving DecidableEq, Repr

/-- An xarray Dataset: dimension sizes in enumeration order, coordinate
variables, data variables (each insertion-ordered), and global attributes. -/
structure XDataset where
  dims : List (String × ℕ)
  coords : List (String × XVar)
  data_vars : List (String × XVar)
  attrs : List (String × PyVal)
  deriving DecidableEq, Repr

/-! ### Insertion-ordered mapping operations (Python `dict` semantics) -/

/-- `dict` lookup: first (and only) binding of the key. -/
def lookupA {α β : Type} [BEq α] : List (α × β) → α → Option β
  | [], _ => none
  | (k', v') :: rest, k => if k' == k then some v' else lookupA rest k

/-- `dict` assignment: overwrite in place if the key exists, else append. -/
def setA {α β : Type} [BEq α] : List (α × β) → α → β → List (α × β)
  | [], k, v => [(k, v)]
  | (k', v') :: rest, k, v =>
    if k' == k then (k, v) :: rest else (k', v') :: setA rest k v

/-! ### Python number printing

`str` on an integer prints its decimal form; on a float it prints a decimal
form with at least one fractional digit (`str(7.0) == "7.0"`).  Exponent
notation for extreme magnitudes is not modelled; the inputs exercised here
never reach it.  Floats are exact rationals in the model, so the expansion
below terminates for every value a parsed decimal literal can produce; the
fuel bound is far beyond any dyadic float's expansion length. -/

/-- Decimal digits of the fractional part `r / d` (long division). -/
def fracDigits : ℕ → ℕ → ℕ → List Char
  | _, _, 0 => []
  | r, d, fuel + 1 =>
    if r = 0 then []
    else
      let r10 := r * 10
      Char.ofNat (48 + r10 / d) :: fracDigits (r10 % d) d fuel

/-- `str(float)`: sign, integer part, `.`, fractional digits (`"0"` if none). -/
def floatRepr (q : ℚ) : String :=
  let sign := if q.num < 0 then "-" else ""
  let n := q.num.natAbs
  let d := q.den
  let frac := fracDigits (n % d) d 400
  sign ++ toString (n / d) ++ "." ++ (if frac.isEmpty then "0" else String.mk frac)

/-- Python `str()` on the modelled scalar values.  `str(True) == "True"`. -/
def pyStr : PyVal → String
  | .pstr s => s
  | .pint n => toString n
  | .pfloat q => floatRepr q
  | .pnan => "nan"
  | .pbool b => if b then "True" else "False"

/-- `isinstance(value, (int, float))`: true for ints, floats (including the
NaN float) and booleans (Python `bool` is a subclass of `int`). -/
def isIntOrFloat : PyVal → Bool
  | .pint _ => true
  | .pfloat _ => true
  | .pnan => true
  | .pbool _ => true
  | .pstr _ => false

/-- `np.isnan` on a scalar: `True` exactly for the NaN float; raises
`TypeError` on strings (`ufunc 'isnan' not supported`). -/
def np_isnan : PyVal → Except PyError Bool
  | .pnan => .ok true
  | .pstr _ => .error (.typeErr "isnan not supported for str")
  | _ => .ok false

/-! ### `dumps.py` -/

/-- Embeds `_format_value` (dumps.py:34).  The Python branch order is:
strings are quoted; then `isinstance(value, (int, float))` — which booleans
also satisfy — returns `"NaN"` for NaN and `str(value)` otherwise; the
subsequent `isinstance(value, bool)` branch returning `str(int(value))` is
therefore unreachable; anything else falls back to `str(value)`. -/
def _format_value (value : PyVal) : String :=
  match value with
  | .pstr s => "\"" ++ s ++ "\""
  | v =>
    if isIntOrFloat v then
      if v == .pnan then "NaN" else pyStr v
    else
      pyStr v

/-- Chunks of at most 8 items (`formatted_values[i:i + 8]` for
`i in range(0, len, 8)`); fueled structural recursion (each step drops 8
elements of a non-empty list, so fuel `length + 1` is never exhausted). -/
def toChunksAux : ℕ → List String → List (List String)
  | 0, _ => []
  | _, [] => []
  | fuel + 1, x :: xs => (x :: xs).take 8 :: toChunksAux fuel ((x :: xs).drop 8)

/-- Chunks of at most 8 items of a list. -/
def toChunks8 (l : List String) : List (List String) :=
  toChunksAux (l.length + 1) l

/-- One element of the data-section formatting loop: `"NaN"` if
`np.isnan(val)` (which raises `TypeError` for string elements), else
`str(val)`. -/
def fmtCell (v : PyVal) : Except PyError String := do
  let b ← np_isnan v
  pure (if b then "NaN" else pyStr v)

/-- Embeds `_format_data_array` (dumps.py:48): empty data renders as `""`;
otherwise each flattened element is formatted by `fmtCell`; items are joined
8 per line with `", "`, lines joined with `",\n    "`. -/
def _format_data_array (data : List PyVal) : Except PyError String :=
  if data.length == 0 then .ok ""
  else do
    let formatted ← data.mapM fmtCell
    pure (String.intercalate ",\n    " ((toChunks8 formatted).map (String.intercalate ", ")))

/-- `str.startswith` (over the character lists, for kernel evaluability). -/
def strStartsWith (s pre : String) : Bool :=
  pre.toList.isPrefixOf s.toList

/-- Embeds `_get_dtype_string` (dumps.py:75): prefix dispatch on `str(dtype)`
with a `'float'` fallback. -/
def _get_dtype_string (dtype : Dtype) : String :=
  let s := dtypeName dtype
  if strStartsWith s "float" then (if s == "float64" then "double" else "float")
  else if strStartsWith s "int" then (if s == "int64" then "long" else "int")
  else if strStartsWith s "uint" then "int"
  else if s == "bool" then "byte"
  else if strStartsWith s "str" || strStartsWith s "object" then "char"
  else "float"

/-- One declaration line of the variables section
(`    {dtype_str} {name}{dims_str};`). -/
def declLine (nm : String) (v : XVar) : String :=
  let dims_str := if v.dims.isEmpty then "" else "(" ++ String.intercalate ", " v.dims ++ ")"
  "    " ++ _get_dtype_string v.dtype ++ " " ++ nm ++ dims_str ++ ";"

/-- Attribute lines for one variable (`        {name}:{attr} = {value};`). -/
def attrLines (nm : String) (v : XVar) : List String :=
  v.attrs.map (fun p => "        " ++ nm ++ ":" ++ p.1 ++ " = " ++ _format_value p.2 ++ ";")

/-- One step of the data-section loop: append `    {name} = {data_str};`
when the variable's size is positive (`if var.size > 0`; for a valid dataset
the flattened buffer length is the size), else keep the lines unchanged. -/
def dataLineStep (acc : List String) (p : String × XVar) : Except PyError (List String) :=
  if p.2.data.length > 0 then do
    let s ← _format_data_array p.2.data
    pure (acc ++ ["    " ++ p.1 ++ " = " ++ s ++ ";"])
  else pure acc

/-- Data-section lines for a list of variables. -/
def dataLines (pairs : List (String × XVar)) : Except PyError (List String) :=
  pairs.foldlM dataLineStep []

/-- Embeds `dumps` (dumps.py:98): renders the netcdf header, the dimensions
section, variable declarations (coordinates first), variable attribute lines
(coordinates first), the optional global-attributes block, and the data
section (coordinates first), joined by newlines. -/
def dumps (ds : XDataset) (name : String) : Except PyError String := do
  let dimLines := ds.dims.map (fun p => "    " ++ p.1 ++ " = " ++ toString p.2 ++ ";")
  let coordDecls := ds.coords.map (fun p => declLine p.1 p.2)
  let varDecls := ds.data_vars.map (fun p => declLine p.1 p.2)
  let coordAttrs := (ds.coords.map (fun p => attrLines p.1 p.2)).flatten
  let varAttrs := (ds.data_vars.map (fun p => attrLines p.1 p.2)).flatten
  let globalLines :=
    if ds.attrs.isEmpty then []
    else "    // global attributes" ::
      ds.attrs.map (fun p => "        :" ++ p.1 ++ " = " ++ _format_value p.2 ++ ";")
  let coordData ← dataLines ds.coords
  let varData ← dataLines ds.data_vars
  pure (String.intercalate "\n"
    (["netcdf " ++ name ++ " \x7b", "dimensions:"] ++ dimLines
      ++ ["variables:"] ++ coordDecls ++ varDecls
      ++ coordAttrs ++ varAttrs ++ globalLines
      ++ ["data:"] ++ coordData ++ varData ++ ["\x7d"]))

/-! ### lark syntax trees

`lark` parse trees consist of `Tree` nodes (a rule name `data` plus a list of
children) whose children are subtrees, `Token`s (a terminal name plus the
matched text), or `None` placeholders inserted for unmatched `[x]` items
(`maybe_placeholders`).  Anonymous tokens arising from string literals in the
grammar (`"netcdf"`, `"{"`, `"="`, `"_"`, `"UNLIMITED"`, …) are filtered out
of the tree; named terminals (`CNAME`, `INT`, `SIGNED_NUMBER`,
`ESCAPED_STRING`) are kept; an alternative marked with an alias
(`-> num`, `-> nan`, `-> string`, the `dtype` keywords) builds a tree named by
the alias; a `?rule` tree with exactly one child is inlined into its parent. -/
inductive LItem where
  | tok (ty val : String)
  | nil
  | node (data : String) (children : List LItem)
  deriving Repr, Inhabited

mutual
/-- Number of `Tree` nodes and leaves in an item (used to justify the
termination of the breadth-first enumeration below). -/
def LItem.sz : LItem → ℕ
  | .tok _ _ => 1
  | .nil => 1
  | .node _ cs => 1 + szList cs

/-- Sum of `LItem.sz` over a list. -/
def szList : List LItem → ℕ
  | [] => 0
  | c :: cs => c.sz + szList cs
end

/-- Is this child a `Tree` (as opposed to a `Token` or `None`)? -/
def LItem.isTree : LItem → Bool
  | .node _ _ => true
  | _ => false

/-- The subtree children pushed by `Tree.iter_subtrees`:
`[c for c in reversed(subtree.children) if isinstance(c, Tree)]`. -/
def subtreeChildren : LItem → List LItem
  | .node _ cs => (cs.filter LItem.isTree).reverse
  | _ => []

/-- Breadth-first enumeration of subtrees: process a queue, appending each
tree's reversed tree-children (as `lark.Tree.iter_subtrees` does); fueled
structural recursion. -/
def bfsAux : ℕ → List LItem → List LItem
  | 0, _ => []
  | _, [] => []
  | fuel + 1, c :: cs => c :: bfsAux fuel (cs ++ subtreeChildren c)

/-- Breadth-first enumeration with the sufficient fuel `szList q + 1`: each
step strictly decreases `szList` of the queue
(`szList_subtreeChildren_lt`), so the fuel is never exhausted
(`bfsAux_fuel_irrelevant`, both proved in the theorems section below). -/
def bfs (q : List LItem) : List LItem :=
  bfsAux (szList q + 1) q

/-- `lark.Visitor.visit` order: `iter_subtrees` returns the reversed
breadth-first enumeration, so children are visited before their parents and,
within one depth level, left to right. -/
def visitOrder (t : LItem) : List LItem :=
  (bfs [t]).reverse

/-! ### Number literals

`parse_value_node` calls Python `float()` on the raw text of a
`SIGNED_NUMBER` token; machine floats are idealised as exact rationals. -/

/-- Value of a list of decimal digit characters. -/
def digitsToNat (cs : List Char) : ℕ :=
  cs.foldl (fun a c => a * 10 + (c.toNat - 48)) 0

/-- Python `float()` on decimal literals (`[+-]? digits [. digits] [eE [+-] digits]`);
`none` when the text is not such a literal (then `float()` raises
`ValueError`).  Named special forms such as `"inf"` are not modelled; no
grammar token produces them. -/
def pyFloatOfString (s : String) : Option ℚ :=
  let cs := s.toList
  let p1 : ℤ × List Char :=
    match cs with
    | '-' :: rest => (-1, rest)
    | '+' :: rest => (1, rest)
    | _ => (1, cs)
  let (ip, rest1) := p1.2.span Char.isDigit
  let p2 : List Char × List Char :=
    match rest1 with
    | '.' :: rest => rest.span Char.isDigit
    | _ => ([], rest1)
  let (fp, rest2) := p2
  let p3 : Bool × ℤ × List Char :=
    match rest2 with
    | 'e' :: rest =>
      match rest with
      | '-' :: r => (let (ed, r') := r.span Char.isDigit
                     ((!ed.isEmpty), -(digitsToNat ed : ℤ), r'))
      | '+' :: r => (let (ed, r') := r.span Char.isDigit
                     ((!ed.isEmpty), (digitsToNat ed : ℤ), r'))
      | _ => (let (ed, r') := rest.span Char.isDigit
              ((!ed.isEmpty), (digitsToNat ed : ℤ), r'))
    | 'E' :: rest =>
      match rest with
      | '-' :: r => (let (ed, r') := r.span Char.isDigit
                     ((!ed.isEmpty), -(digitsToNat ed : ℤ), r'))
      | '+' :: r => (let (ed, r') := r.span Char.isDigit
                     ((!ed.isEmpty), (digitsToNat ed : ℤ), r'))
      | _ => (let (ed, r') := rest.span Char.isDigit
              ((!ed.isEmpty), (digitsToNat ed : ℤ), r'))
    | _ => (true, 0, rest2)
  let (expOk, e, rest3) := p3
  if ip.isEmpty && fp.isEmpty then none
  else if !expOk then none
  else if !rest3.isEmpty then none
  else
    -- value = sign * digits(ip fp) * 10^e / 10^(len fp), built with one
    -- `Rat.divInt` so the construction evaluates in the kernel
    let mant : ℤ := p1.1 * (digitsToNat (ip ++ fp) : ℤ)
    some (if e ≥ 0 then Rat.divInt (mant * ((10 : ℤ) ^ e.toNat)) ((10 : ℤ) ^ fp.length)
          else Rat.divInt mant ((10 : ℤ) ^ (fp.length + (-e).toNat)))

/-! ### `generate.py`: the tree reducer (`DatasetVisitor`) -/

/-- A value of the `_dims` mapping: `int(...)` of an `INT` token, or the raw
token text when the token type is not `INT` (the `else` branch of
`dimension_pair`). -/
inductive PyDimVal where
  | int (n : ℕ)
  | str (s : String)
  deriving DecidableEq, Repr

/-- The mutable accumulator state of `DatasetVisitor.__init__`. -/
structure VState where
  variable_dims : List (String × List String)
  variable_dtype : List (String × String)
  variable_attrs : List (Option String × List (String × PyVal))
  dims : List (String × PyDimVal)
  variable_data : List (String × List PyVal)
  deriving DecidableEq, Repr

/-- The freshly initialised visitor state (all mappings empty). -/
def initState : VState := ⟨[], [], [], [], []⟩

/-- Python `str()` applied to a tree item (`str(Token)` is the token text;
`str` never fails). -/
def pyStrOfItem : LItem → String
  | .tok _ v => v
  | .nil => "None"
  | .node d _ => "Tree(" ++ d ++ ", ...)"

/-- Embeds `parse_value_node` (generate.py:38): dispatch on `value_node.data`
(`AttributeError` on a non-`Tree` argument); `num` applies `float()` to the
token text, `nan` yields the NaN float, `string` strips the first and last
character (the enclosing quotes) without unescaping, and any other node kind
raises `ValueError("Cannot parse ...")`. -/
def parse_value_node : LItem → Except PyError PyVal
  | .node "num" cs =>
    match cs with
    | .tok _ v :: _ =>
      match pyFloatOfString v with
      | some q => .ok (.pfloat q)
      | none => .error (.valueErr "could not convert string to float")
    | .node _ _ :: _ => .error (.attributeErr "value")
    | .nil :: _ => .error (.attributeErr "value")
    | [] => .error .indexErr
  | .node "nan" _ => .ok .pnan
  | .node "string" cs =>
    match cs with
    | .tok _ v :: _ => .ok (.pstr (String.mk ((v.toList.drop 1).dropLast)))
    | .node _ _ :: _ => .error (.attributeErr "value")
    | .nil :: _ => .error (.attributeErr "value")
    | [] => .error .indexErr
  | .node d _ => .error (.valueErr ("Cannot parse " ++ d))
  | _ => .error (.attributeErr "data")

/-- `attrs = self._variable_attrs.setdefault(key, {}); attrs[attrname] = v`. -/
def setAttr (st : VState) (key : Option String) (attrname : String) (v : PyVal) : VState :=
  let cur := (lookupA st.variable_attrs key).getD []
  { st with variable_attrs := setA st.variable_attrs key (setA cur attrname v) }

/-- One step of `lark.Visitor` dispatch: trees named after a visitor method
(`dimension_pair`, `variable_decl`, `variable_attr`, `datum`, `list`) run it;
every other subtree is skipped.  Each method mirrors the corresponding
`DatasetVisitor` method, including the Python failure kinds on each access
(`AttributeError` for `.value`/`.type`/`.data`/`.children` on a non-`Token`
or non-`Tree`, `IndexError` for a missing child, `ValueError` for a failed
3-way unpacking, `AssertionError` for the `datum` membership assert). -/
def visitNode (st : VState) : LItem → Except PyError VState
  | .node "dimension_pair" cs =>
    -- dim = v.children[0].value; size = int(children[1].value) if children[1].type == "INT"
    --       else children[1].value
    match cs with
    | c0 :: c1 :: _ =>
      match c0 with
      | .tok _ dim =>
        match c1 with
        | .tok ty v =>
          -- int(...) on the digit string of an INT token
          let size : PyDimVal := if ty == "INT" then .int (digitsToNat v.toList) else .str v
          .ok { st with dims := setA st.dims dim size }
        | _ => .error (.attributeErr "type")
      | _ => .error (.attributeErr "value")
    | _ => .error .indexErr
  | .node "variable_decl" cs =>
    -- dtype_node, name, dims_node = v.children  (ValueError unless exactly 3)
    match cs with
    | [dty, nameItem, dimsItem] =>
      match dty with
      | .node dstr _ =>
        let nm := pyStrOfItem nameItem
        match dimsItem with
        | .nil =>
          .ok { st with variable_dims := setA st.variable_dims nm [],
                        variable_dtype := setA st.variable_dtype nm dstr }
        | .node _ ds =>
          .ok { st with variable_dims := setA st.variable_dims nm (ds.map pyStrOfItem),
                        variable_dtype := setA st.variable_dtype nm dstr }
        | .tok _ _ => .error (.attributeErr "children")
      | _ => .error (.attributeErr "data")
    | _ => .error (.valueErr "unpack")
  | .node "variable_attr" cs =>
    -- varname, attr_node, value_node = v.children; attrs keyed by
    -- varname.value if varname else None
    match cs with
    | [vn, attrItem, valueNode] =>
      match attrItem with
      | .tok _ attrname =>
        match vn with
        | .nil => do
          let v ← parse_value_node valueNode
          .ok (setAttr st none attrname v)
        | .tok _ vname => do
          let v ← parse_value_node valueNode
          .ok (setAttr st (some vname) attrname v)
        | .node _ _ => .error (.attributeErr "value")
      | _ => .error (.attributeErr "value")
    | _ => .error (.valueErr "unpack")
  | .node "datum" cs =>
    -- varname = v.children[0].value; assert varname in self._variable_dims;
    -- self._variable_data[varname] = list(v.children[1].data)
    match cs with
    | c0 :: rest =>
      match c0 with
      | .tok _ varname =>
        if (lookupA st.variable_dims varname).isNone then .error .assertionErr
        else
          match rest with
          | c1 :: _ =>
            match c1 with
            | .node _ lst => do
              let d ← lst.mapM parse_value_node
              .ok { st with variable_data := setA st.variable_data varname d }
            | _ => .error (.attributeErr "data")
          | [] => .error .indexErr
      | _ => .error (.attributeErr "value")
    | [] => .error .indexErr
  | .node "list" cs => do
    -- v.data = [parse_value_node(node) for node in v.children]; the value is
    -- re-read (unchanged) by the later `datum` visit, so only a raised
    -- exception is observable here
    let _ ← cs.mapM parse_value_node
    .ok st
  | _ => .ok st

/-- Embeds `DatasetVisitor().visit(tree)`: fold the method dispatch over the
subtrees in `iter_subtrees` order (bottom-up, left-to-right per level). -/
def visit (t : LItem) : Except PyError VState :=
  (visitOrder t).foldlM visitNode initState

/-! ### `generate.py`: the assembler (`generate_dataset`) -/

/-- `tuple(self._dims[k] for k in self._variable_dims[name])`: left-to-right
lookups, `KeyError` at the first unresolved dimension name. -/
def resolveShape (dims : List (String × PyDimVal)) : List String → Except PyError (List PyDimVal)
  | [] => .ok []
  | k :: rest =>
    match lookupA dims k with
    | none => .error (.keyErr k)
    | some v => do
      let tail ← resolveShape dims rest
      .ok (v :: tail)

/-- Flattened buffer size of a shape (product of the integer extents). -/
def shapeProd (shape : List PyDimVal) : ℕ :=
  shape.foldl (fun a d => match d with | .int n => a * n | .str _ => a) 1

/-- `np.zeros(shape)`: a flattened row-major buffer of zeros with the *default*
dtype `float64` (no dtype argument is passed); raises `TypeError` when the
shape tuple contains a non-integer. -/
def np_zeros (shape : List PyDimVal) : Except PyError (List PyVal) :=
  if shape.all (fun d => match d with | .int _ => true | .str _ => false) then
    .ok (List.replicate (shapeProd shape) (.pfloat 0))
  else .error (.typeErr "an integer is required")

/-- Assignment of one supplied literal into a float64 buffer: numpy casts
numeric values (and numeric strings) to float and raises `ValueError` for a
non-numeric string. -/
def toFloatCell : PyVal → Except PyError PyVal
  | .pfloat q => .ok (.pfloat q)
  | .pnan => .ok .pnan
  | .pint n => .ok (.pfloat (Rat.divInt n 1))
  | .pbool b => .ok (.pfloat (if b then 1 else 0))
  | .pstr s =>
    match pyFloatOfString s with
    | some q => .ok (.pfloat q)
    | none => .error (.valueErr "could not convert string to float")

/-- `view = arr.ravel(); n = min(view.size, len(data)); view[:n] = data[:n]`:
overlay the first `n` flattened positions, leave the rest untouched. -/
def overlayData (arr data : List PyVal) : Except PyError (List PyVal) := do
  let n := min arr.length data.length
  let pre ← (data.take n).mapM toFloatCell
  .ok (pre ++ arr.drop n)

/-- The body of the `generate_dataset` loop for one declared variable:
resolve the shape, allocate `np.zeros(shape)` (always dtype float64), overlay
the literal data if any, and attach the accumulated attributes. -/
def buildVar (st : VState) (name : String) (dimNames : List String) : Except PyError XVar := do
  let shape ← resolveShape st.dims dimNames
  let arr0 ← np_zeros shape
  let arr ←
    match lookupA st.variable_data name with
    | some data => overlayData arr0 data
    | none => .ok arr0
  .ok { dims := dimNames, dtype := .float64, data := arr,
        attrs := (lookupA st.variable_attrs (some name)).getD [] }

/-- Dimension names in first-appearance order over the built variables, with
sizes from the reducer's dimension table (the sizes xarray infers from the
array shapes). -/
def collectDims (st : VState) (vars : List (String × XVar)) : List (String × ℕ) :=
  (vars.foldl (fun acc p =>
      p.2.dims.foldl (fun a d => if a.contains d then a else a ++ [d]) acc) []).map
    (fun d => (d, match lookupA st.dims d with | some (.int n) => n | _ => 0))

/-- Embeds `DatasetVisitor.generate_dataset` (generate.py:101): build every
declared variable in declaration order, then construct the
`xarray.Dataset(data_vars, attrs)` with the unscoped (`None`-keyed) attribute
mapping as global attributes.  Variables whose name equals a dimension name
are partitioned as coordinate variables (spec §3/§4.3); construction logic is
identical for both classes. -/
def generate_dataset (st : VState) : Except PyError XDataset := do
  let vars ← st.variable_dims.mapM (fun p => do
    let v ← buildVar st p.1 p.2
    pure (p.1, v))
  let ds_dims := collectDims st vars
  let isCoord := fun (p : String × XVar) => ds_dims.any (fun q => q.1 == p.1)
  .ok { dims := ds_dims,
        coords := vars.filter isCoord,
        data_vars := vars.filter (fun p => !isCoord p),
        attrs := (lookupA st.variable_attrs none).getD [] }

/-! ### `xarray.decode_cf` (external collaborator) -/

/-- Modelled from the spec: `xarray.decode_cf` is not part of this repository
(spec §6 lists the post-assembly "decode conventions" step as an external
collaborator applied by the caller); it is modelled here by its
attribute-driven masking behaviour — values equal to a variable's
`_FillValue` attribute are replaced by NaN and the attribute is consumed. -/
def decode_var (v : XVar) : XVar :=
  match lookupA v.attrs "_FillValue" with
  | some fv =>
    { v with data := v.data.map (fun c => if c == fv then .pnan else c),
             attrs := v.attrs.filter (fun p => p.1 != "_FillValue") }
  | none => v

/-- Modelled from the spec: dataset-wide `xarray.decode_cf`, applying
`decode_var` to every coordinate and data variable. -/
def decode_cf (ds : XDataset) : XDataset :=
  { ds with coords := ds.coords.map (fun p => (p.1, decode_var p.2)),
            data_vars := ds.data_vars.map (fun p => (p.1, decode_var p.2)) }

/-! ### The CDL parser (parser.py grammar + `lark.Lark(grammar, start="netcdf", parser="lalr")`)

An executable embedding of the concrete parser: a tokenizer for the terminals
the grammar uses (`CNAME`, `SIGNED_NUMBER`, `INT`, `ESCAPED_STRING`, the
punctuation and keyword literals, `//` comments and whitespace ignored) and a
recursive-descent parser for the grammar rules, producing exactly the trees
described at `LItem` (anonymous literal tokens filtered, aliases as node
names, `?rule` single-child inlining, `[x]` placeholders).  Keyword literals
take priority over `CNAME` where the LALR contextual lexer expects both. -/

/-- Opening brace character. -/
def lbrace : Char := Char.ofNat 123

/-- Closing brace character. -/
def rbrace : Char := Char.ofNat 125

/-- Lexemes prior to contextual classification: identifiers, numeric
literals, quoted strings (inner raw text), punctuation. -/
inductive Lexeme where
  | name (s : String)
  | num (s : String)
  | str (s : String)
  | punct (c : Char)
  deriving DecidableEq, Repr

/-- Identifier start: letter or underscore (`CNAME`). -/
def isNameStart (c : Char) : Bool := c.isAlpha || c == '_'

/-- Identifier continuation: letter, digit or underscore. -/
def isNameChar (c : Char) : Bool := c.isAlphanum || c == '_'

/-- Scan an `ESCAPED_STRING` body after the opening quote; backslash escapes
are kept verbatim (the reducer strips only the enclosing quotes). -/
def lexStrAux : List Char → List Char → Option (List Char × List Char)
  | _, [] => none
  | acc, '"' :: rest => some (acc.reverse, rest)
  | acc, '\\' :: c :: rest => lexStrAux (c :: '\\' :: acc) rest
  | _, ['\\'] => none
  | acc, c :: rest => lexStrAux (c :: acc) rest

/-- Exponent part of a numeric literal (only consumed when digits follow). -/
def lexExp : List Char → Option (List Char × List Char)
  | '-' :: r =>
    let (d, r') := r.span Char.isDigit
    if d.isEmpty then none else some ('-' :: d, r')
  | '+' :: r =>
    let (d, r') := r.span Char.isDigit
    if d.isEmpty then none else some ('+' :: d, r')
  | r =>
    let (d, r') := r.span Char.isDigit
    if d.isEmpty then none else some (d, r')

/-- Scan a `SIGNED_NUMBER` (`[+-]? digits [. digits?] [eE [+-] digits]`). -/
def lexNum (cs : List Char) : List Char × List Char :=
  let p1 : List Char × List Char :=
    match cs with
    | '-' :: r => (['-'], r)
    | '+' :: r => (['+'], r)
    | _ => ([], cs)
  let (ip, r2) := p1.2.span Char.isDigit
  let p3 : List Char × List Char :=
    match r2 with
    | '.' :: r => (let (f, r') := r.span Char.isDigit; ('.' :: f, r'))
    | _ => ([], r2)
  let p4 : List Char × List Char :=
    match p3.2 with
    | 'e' :: r =>
      (match lexExp r with
       | some (d, r') => ('e' :: d, r')
       | none => ([], p3.2))
    | 'E' :: r =>
      (match lexExp r with
       | some (d, r') => ('E' :: d, r')
       | none => ([], p3.2))
    | _ => ([], p3.2)
  (p1.1 ++ ip ++ p3.1 ++ p4.1, p4.2)

/-- Does a sign character start a numeric literal here? -/
def startsNumTail : List Char → Bool
  | c :: _ => c.isDigit || c == '.'
  | [] => false

/-- Is this character one of the grammar's punctuation literals? -/
def isPunct (c : Char) : Bool :=
  c == lbrace || c == rbrace || c == '(' || c == ')' || c == ':' || c == ';'
    || c == ',' || c == '='

/-- The tokenizer.  Whitespace and `//` comments are ignored (`%ignore`);
any other unexpected character is a `SyntaxError`.  Fuel is the remaining
input length plus one: every step consumes at least one character, so the
fuel branch is unreachable. -/
def tokenizeAux : ℕ → List Char → Except PyError (List Lexeme)
  | 0, _ => .error (.synErr "lexer fuel exhausted")
  | _, [] => .ok []
  | fuel + 1, c :: cs =>
    if c == ' ' || c == '\t' || c == '\n' || c == '\r' then tokenizeAux fuel cs
    else if c == '/' then
      match cs with
      | '/' :: rest => tokenizeAux fuel (rest.dropWhile (fun x => x != '\n'))
      | _ => .error (.synErr "unexpected character")
    else if isNameStart c then
      let (nm, rest) := cs.span isNameChar
      (tokenizeAux fuel rest).map (fun ts => .name (String.mk (c :: nm)) :: ts)
    else if c.isDigit || ((c == '-' || c == '+') && startsNumTail cs)
        || (c == '.' && startsNumTail cs) then
      let (numStr, rest) := lexNum (c :: cs)
      (tokenizeAux fuel rest).map (fun ts => .num (String.mk numStr) :: ts)
    else if c == '"' then
      match lexStrAux [] cs with
      | some (inner, rest) =>
        (tokenizeAux fuel rest).map (fun ts => .str (String.mk inner) :: ts)
      | none => .error (.synErr "unterminated string")
    else if isPunct c then
      (tokenizeAux fuel cs).map (fun ts => .punct c :: ts)
    else .error (.synErr "unexpected character")

/-- Tokenize a whole input string. -/
def tokenize (s : String) : Except PyError (List Lexeme) :=
  tokenizeAux (s.length + 1) s.toList

/-- Section-introducing keywords of the `bracket` rule. -/
def sectionKeywords : List String := ["dimensions", "variables", "data", "group"]

/-- The `dtype` rule keywords, with their alias node names. -/
def dtypeKeywords : List String := ["float", "double", "int", "char", "byte", "int64"]

/-- `?rule` inlining: a tree with exactly one child is replaced by the child. -/
def mkInline (d : String) : List LItem → LItem
  | [c] => c
  | cs => .node d cs

/-- Does the token stream sit at the start of a new section
(`dimensions:`/`variables:`/`data:`/`group:`)?  The contextual lexer gives
these keyword literals priority over `CNAME`. -/
def atSectionStart : List Lexeme → Bool
  | .name s :: .punct ':' :: _ => sectionKeywords.contains s
  | _ => false

/-- Parse one `value` (`SIGNED_NUMBER -> num | "NaN"|"NaNf" -> nan |
ESCAPED_STRING -> string`); the alias keeps an aliased tree even under `?`. -/
def parseValue : List Lexeme → Except PyError (LItem × List Lexeme)
  | .num s :: rest => .ok (.node "num" [.tok "SIGNED_NUMBER" s], rest)
  | .name s :: rest =>
    if s == "NaN" || s == "NaNf" then .ok (.node "nan" [], rest)
    else .error (.synErr "unexpected token")
  | .str inner :: rest =>
    .ok (.node "string" [.tok "ESCAPED_STRING" ("\"" ++ inner ++ "\"")], rest)
  | _ => .error (.synErr "unexpected token")

/-- Parse one `data_value` (`value | "_"`); the anonymous `"_"` token is
filtered out, leaving an *empty* `data_value` tree that `?` cannot inline. -/
def parseDataValue : List Lexeme → Except PyError (LItem × List Lexeme)
  | .name "_" :: rest => .ok (.node "data_value" [], rest)
  | toks => parseValue toks

/-- Remaining `("," dim)*` of a `var_dims` rule. -/
def parseDimTail : List Lexeme → Except PyError (List LItem × List Lexeme)
  | .punct ',' :: .name d :: rest =>
    (parseDimTail rest).map (fun p => (.tok "CNAME" d :: p.1, p.2))
  | .punct ',' :: _ => .error (.synErr "unexpected token")
  | toks => .ok ([], toks)

/-- Parse one `dimension_pair` (`dim "=" dim_size ";"`).  An `INT` size stays
a kept named token; the anonymous `"UNLIMITED"` literal is filtered, leaving
an empty `dim_size` tree. -/
def parseDimensionPair : List Lexeme → Except PyError (LItem × List Lexeme)
  | .name d :: .punct '=' :: rest =>
    match rest with
    | .num s :: .punct ';' :: rest' =>
      if s.toList.all Char.isDigit then
        .ok (.node "dimension_pair" [.tok "CNAME" d, .tok "INT" s], rest')
      else .error (.synErr "unexpected token")
    | .name u :: .punct ';' :: rest' =>
      if u == "UNLIMITED" then
        .ok (.node "dimension_pair" [.tok "CNAME" d, .node "dim_size" []], rest')
      else .error (.synErr "unexpected token")
    | _ => .error (.synErr "unexpected token")
  | _ => .error (.synErr "unexpected token")

/-- Parse one `variable` item: a declaration when a `dtype` keyword starts it
(keyword literals take priority over `CNAME`), otherwise an attribute
statement `[symbol] ":" symbol "=" value ";"` (global when the leading
symbol is omitted, which becomes a `None` placeholder). -/
def parseVariableItem : List Lexeme → Except PyError (LItem × List Lexeme)
  | .name s :: rest =>
    if dtypeKeywords.contains s then
      match rest with
      | .name nm :: rest' =>
        match rest' with
        | .punct '(' :: .name d0 :: rest'' => do
          let (ds, rest3) ← parseDimTail rest''
          match rest3 with
          | .punct ')' :: .punct ';' :: rest4 =>
            .ok (.node "variable_decl"
                  [.node s [], .tok "CNAME" nm,
                   .node "var_dims" (.tok "CNAME" d0 :: ds)], rest4)
          | _ => .error (.synErr "unexpected token")
        | .punct ';' :: rest'' =>
          .ok (.node "variable_decl" [.node s [], .tok "CNAME" nm, .nil], rest'')
        | _ => .error (.synErr "unexpected token")
      | _ => .error (.synErr "unexpected token")
    else
      match rest with
      | .punct ':' :: .name attr :: .punct '=' :: rest' => do
        let (v, rest'') ← parseValue rest'
        match rest'' with
        | .punct ';' :: rest3 =>
          .ok (.node "variable_attr" [.tok "CNAME" s, .tok "CNAME" attr, v], rest3)
        | _ => .error (.synErr "unexpected token")
      | _ => .error (.synErr "unexpected token")
  | .punct ':' :: .name attr :: .punct '=' :: rest' => do
    let (v, rest'') ← parseValue rest'
    match rest'' with
    | .punct ';' :: rest3 =>
      .ok (.node "variable_attr" [.nil, .tok "CNAME" attr, v], rest3)
    | _ => .error (.synErr "unexpected token")
  | _ => .error (.synErr "unexpected token")

/-- The recursive grammar productions, tagged so that they form a single
fueled function (structural recursion on the fuel, so the parser evaluates
in the kernel). -/
inductive PMode where
  | bracket
  | sections
  | sect
  | dimPairs
  | varItems
  | datums
  | listTail
  deriving DecidableEq, Repr

/-- The recursive part of the parser.  Modes: `bracket` parses
`"{" (dimensions | variables | data | group)* "}"` (result is one item);
`sections` the section list of a bracket body; `sect` one section;
`dimPairs` a `dimension_pair*` list; `varItems` a `variable*` list up to the
next section keyword or closing brace; `datums` a `datum*` list; `listTail`
the `("," data_value)*` tail of a `list`.  Fuel strictly decreases on every
recursive call and at most a handful of calls happen per consumed token, so
the initial fuel `8 * (tokens + 1)` is never exhausted on any input. -/
def parseRun : ℕ → PMode → List Lexeme → Except PyError (List LItem × List Lexeme)
  | 0, _, _ => .error (.synErr "parser fuel exhausted")
  | fuel + 1, .bracket, toks =>
    match toks with
    | .punct c :: rest =>
      if c == lbrace then do
        let (secs, rest') ← parseRun fuel .sections rest
        match rest' with
        | .punct c' :: rest'' =>
          if c' == rbrace then .ok ([mkInline "bracket" secs], rest'')
          else .error (.synErr "unexpected token")
        | _ => .error (.synErr "unexpected token")
      else .error (.synErr "unexpected token")
    | _ => .error (.synErr "unexpected token")
  | fuel + 1, .sections, toks =>
    match toks with
    | .punct c :: _ =>
      if c == rbrace then .ok ([], toks)
      else .error (.synErr "unexpected token")
    | _ =>
      if atSectionStart toks then do
        let (s, rest) ← parseRun fuel .sect toks
        let (ss, rest') ← parseRun fuel .sections rest
        .ok (s ++ ss, rest')
      else .error (.synErr "unexpected token")
  | fuel + 1, .sect, toks =>
    match toks with
    | .name k :: .punct ':' :: rest =>
      if k == "dimensions" then do
        let (ps, rest') ← parseRun fuel .dimPairs rest
        .ok ([.node "dimensions" ps], rest')
      else if k == "variables" then do
        let (items, rest') ← parseRun fuel .varItems rest
        .ok ([.node "variables" items], rest')
      else if k == "data" then do
        let (ds, rest') ← parseRun fuel .datums rest
        .ok ([.node "data" ds], rest')
      else if k == "group" then
        match rest with
        | .name nm :: rest' => do
          let (br, rest'') ← parseRun fuel .bracket rest'
          .ok ([.node "group" (.tok "CNAME" nm :: br)], rest'')
        | _ => .error (.synErr "unexpected token")
      else .error (.synErr "unexpected token")
    | _ => .error (.synErr "unexpected token")
  | fuel + 1, .dimPairs, toks =>
    match toks with
    | .name _ :: .punct '=' :: _ => do
      let (p, rest) ← parseDimensionPair toks
      let (ps, rest') ← parseRun fuel .dimPairs rest
      .ok (p :: ps, rest')
    | _ => .ok ([], toks)
  | fuel + 1, .varItems, toks =>
    if atSectionStart toks then .ok ([], toks)
    else
      match toks with
      | .name _ :: _ => do
        let (it, rest) ← parseVariableItem toks
        let (its, rest') ← parseRun fuel .varItems rest
        .ok (it :: its, rest')
      | .punct ':' :: _ => do
        let (it, rest) ← parseVariableItem toks
        let (its, rest') ← parseRun fuel .varItems rest
        .ok (it :: its, rest')
      | _ => .ok ([], toks)
  | fuel + 1, .datums, toks =>
    if atSectionStart toks then .ok ([], toks)
    else
      match toks with
      | .name v :: .punct '=' :: rest => do
        let (d0, rest') ← parseDataValue rest
        let (ds, rest'') ← parseRun fuel .listTail rest'
        match rest'' with
        | .punct ';' :: rest3 => do
          let (more, rest4) ← parseRun fuel .datums rest3
          .ok (.node "datum" [.tok "CNAME" v, .node "list" (d0 :: ds)] :: more, rest4)
        | _ => .error (.synErr "unexpected token")
      | _ => .ok ([], toks)
  | fuel + 1, .listTail, toks =>
    match toks with
    | .punct ',' :: rest => do
      let (d, rest') ← parseDataValue rest
      let (ds, rest'') ← parseRun fuel .listTail rest'
      .ok (d :: ds, rest'')
    | _ => .ok ([], toks)

/-- Collect the `symbol*` tokens between `netcdf` and the opening brace. -/
def parseSymbols : List Lexeme → List LItem × List Lexeme
  | .name s :: rest =>
    let (ss, r) := parseSymbols rest
    (.tok "CNAME" s :: ss, r)
  | toks => ([], toks)

/-- Embeds `cdl_parser.parse(cdl)` for
`lark.Lark(grammar, start="netcdf", parser="lalr")`: tokenize, parse the
`netcdf` start rule and require the whole input to be consumed; failures are
`SyntaxError`s. -/
def parse (s : String) : Except PyError LItem := do
  let toks ← tokenize s
  match toks with
  | .name k :: rest =>
    if k == "netcdf" then do
      let (syms, rest') := parseSymbols rest
      let (br, rest'') ← parseRun (8 * (rest'.length + 1)) .bracket rest'
      if rest''.isEmpty then .ok (mkInline "netcdf" (syms ++ br))
      else .error (.synErr "unexpected token")
    else .error (.synErr "unexpected token")
  | _ => .error (.synErr "unexpected token")

/-- The spec's core parse-direction pipeline
`assemble(reduce(parse(text)))`, with no decoding step. -/
def pipeline (s : String) : Except PyError XDataset := do
  let t ← parse s
  let st ← visit t
  generate_dataset st

/-- Embeds `cdl_to_dataset` (generate.py:122): build the parser, parse the
string into a syntax tree, reduce it with a fresh `DatasetVisitor`, generate
the dataset, and return `xarray.decode_cf(ds)`. -/
def cdl_to_dataset (s : String) : Except PyError XDataset := do
  let tree ← parse s
  let v ← visit tree
  let ds ← generate_dataset v
  .ok (decode_cf ds)

/-! ### Result classifiers and cell predicates -/

/-- Did the computation succeed? -/
def isOkE {α : Type} : Except PyError α → Bool
  | .ok _ => true
  | .error _ => false

/-- Did the computation fail with a `SyntaxError`? -/
def isSynFail {α : Type} : Except PyError α → Bool
  | .error (.synErr _) => true
  | _ => false

/-- A numeric data cell: a float or the NaN float (exactly what the reducer
produces for `num` and `nan` literals). -/
def isNumericCell : PyVal → Bool
  | .pfloat _ => true
  | .pnan => true
  | _ => false

/-- A cell that is not a Python string. -/
def notStrCell : PyVal → Bool
  | .pstr _ => false
  | _ => true

/-! ### Concrete inputs used by the claim theorems -/

/-- A validly constructed dataset: one scalar int32 variable `x` holding 7. -/
def dsInt32 : XDataset :=
  ⟨[], [], [("x", ⟨[], .int32, [.pint 7], []⟩)], []⟩

/-- The text `dumps dsInt32 "n"` renders. -/
def cdlInt32 : String :=
  "netcdf n \x7b\ndimensions:\nvariables:\n    int x;\ndata:\n    x = 7;\n\x7d"

/-- The same dataset with dtype int64. -/
def dsInt64 : XDataset :=
  ⟨[], [], [("x", ⟨[], .int64, [.pint 7], []⟩)], []⟩

/-- The text `dumps dsInt64 "n"` renders (note the `long` keyword, which the
grammar has no production for). -/
def cdlInt64 : String :=
  "netcdf n \x7b\ndimensions:\nvariables:\n    long x;\ndata:\n    x = 7;\n\x7d"

/-- A validly constructed dataset holding string data (object dtype). -/
def dsStrData : XDataset :=
  ⟨[("n", 1)], [], [("s", ⟨["n"], .pyobject, [.pstr "a"], []⟩)], []⟩

/-- An all-numeric dataset with coordinates, attributes and NaN data. -/
def dsNumeric : XDataset :=
  ⟨[("x", 2)],
   [("x", ⟨["x"], .int64, [.pint 0, .pint 1], []⟩)],
   [("v", ⟨["x"], .float64, [.pfloat 1, .pnan], [("units", .pstr "m")]⟩)],
   [("title", .pstr "T")]⟩

/-- CDL text declaring an `int64` variable with one datum. -/
def cdlInt64Decl : String :=
  "netcdf t \x7b\ndimensions:\nvariables:\n    int64 x;\ndata:\n    x = 7;\n\x7d"

/-- CDL text using the `_` placeholder in a data list. -/
def cdlUnderscore : String :=
  "netcdf t \x7b\ndimensions:\n    n = 3;\nvariables:\n    float a(n);\ndata:\n    a = 1, _, 3;\n\x7d"

/-- CDL text with an `UNLIMITED` dimension size. -/
def cdlUnlimited : String :=
  "netcdf t \x7b\ndimensions:\n    time = UNLIMITED;\n\x7d"

/-- CDL text whose data section references an undeclared variable `y`. -/
def cdlUndeclaredDatum : String :=
  "netcdf t \x7b\ndimensions:\nvariables:\ndata:\n    y = 1;\n\x7d"

/-- A declarations set whose only variable references the never-declared
dimension `n`. -/
def declsUnknownDim : VState :=
  ⟨[("a", ["n"])], [("a", "float")], [], [], []⟩

/-- A declarations set whose variable `b(m, k)` has `m` declared (size 2) but
`k` undeclared. -/
def declsUnknownDim2 : VState :=
  ⟨[("b", ["m", "k"])], [("b", "double")], [], [("m", .int 2)], []⟩

/-- A declarations set with `x(n)`, `n = 2`, and three supplied literals. -/
def declsOverlay : VState :=
  ⟨[("x", ["n"])], [("x", "float")], [], [("n", .int 2)],
   [("x", [.pfloat 1, .pfloat 2, .pfloat 3])]⟩

/-- CDL text declaring a scalar `double a` with a `_FillValue` attribute. -/
def cdlFill : String :=
  "netcdf t \x7b\nvariables:\n    double a;\n        a:_FillValue = 1.0;\ndata:\n    a = 1.0;\n\x7d"

/-- The dataset `pipeline cdlFill` assembles (before CF decoding). -/
def dsFill : XDataset :=
  ⟨[], [], [("a", ⟨[], .float64, [.pfloat 1], [("_FillValue", .pfloat 1)]⟩)], []⟩

end Cdl

/-! ## Theorems -/

namespace Cdl

/-! ### General lemmas -/

theorem szList_append (a b : List LItem) : szList (a ++ b) = szList a + szList b := by
  induction a with
  | nil => simp [szList]
  | cons x xs ih => simp [szList, ih]; omega

theorem szList_reverse (a : List LItem) : szList a.reverse = szList a := by
  induction a with
  | nil => rfl
  | cons x xs ih => simp [szList, List.reverse_cons, szList_append, ih]; omega

theorem szList_filter_le (p : LItem → Bool) (a : List LItem) :
    szList (a.filter p) ≤ szList a := by
  induction a with
  | nil => simp [szList]
  | cons x xs ih =>
    by_cases h : p x <;> simp [List.filter, h, szList] <;> omega

theorem LItem.sz_pos (t : LItem) : 0 < t.sz := by
  cases t <;> simp [LItem.sz]

theorem szList_subtreeChildren_lt (t : LItem) :
    szList (subtreeChildren t) < t.sz := by
  cases t with
  | tok ty v => simp [subtreeChildren, szList, LItem.sz]
  | nil => simp [subtreeChildren, szList, LItem.sz]
  | node d cs =>
    simp only [subtreeChildren, LItem.sz, szList_reverse]
    have := szList_filter_le LItem.isTree cs
    omega

/-- Any fuel above `szList q` computes the same breadth-first enumeration:
the fueled recursion in `bfs` never hits its fuel bound. -/
theorem bfsAux_fuel_irrelevant :
    ∀ f₁ f₂ q, szList q < f₁ → szList q < f₂ → bfsAux f₁ q = bfsAux f₂ q := by
  intro f₁
  induction f₁ using Nat.strong_induction_on with
  | _ f₁ ih =>
    intro f₂ q h₁ h₂
    cases q with
    | nil => cases f₁ <;> cases f₂ <;> rfl
    | cons c cs =>
      have hc := LItem.sz_pos c
      have hq : szList (c :: cs) = c.sz + szList cs := rfl
      cases f₁ with
      | zero => omega
      | succ g₁ =>
        cases f₂ with
        | zero => omega
        | succ g₂ =>
          have hlt := szList_subtreeChildren_lt c
          have happ := szList_append cs (subtreeChildren c)
          simp only [bfsAux]
          rw [ih g₁ (by omega) g₂ (cs ++ subtreeChildren c) (by omega) (by omega)]

/-- `cdl_to_dataset` is the core pipeline followed by the decoding step. -/
theorem cdl_to_dataset_eq_map (s : String) :
    cdl_to_dataset s = (pipeline s).map decode_cf := by
  unfold cdl_to_dataset pipeline
  cases parse s with
  | error e => simp [bind, Except.bind, Except.map]
  | ok t =>
    simp only [bind, Except.bind]
    cases visit t with
    | error e => simp [Except.map]
    | ok st =>
      cases generate_dataset st with
      | error e => simp [Except.map]
      | ok ds => simp [Except.map]

/-- `tuple(self._dims[k] for k in ...)` raises `KeyError` at the first
unresolved dimension name. -/
theorem resolveShape_first_missing (dims : List (String × PyDimVal))
    (pre post : List String) (d : String)
    (hpre : ∀ x ∈ pre, (lookupA dims x).isSome = true)
    (hd : lookupA dims d = none) :
    resolveShape dims (pre ++ d :: post) = .error (.keyErr d) := by
  induction pre with
  | nil => simp [resolveShape, hd]
  | cons x xs ih =>
    have hx := hpre x (by simp)
    obtain ⟨vx, hvx⟩ := Option.isSome_iff_exists.mp hx
    have ih' := ih (fun y hy => hpre y (by simp [hy]))
    simp [resolveShape, hvx, ih', bind, Except.bind]

/-- `np.zeros` on an all-integer shape yields the zero-filled flattened
buffer of the shape's product size. -/
theorem np_zeros_ints (sizes : List ℕ) :
    np_zeros (sizes.map PyDimVal.int) =
      .ok (List.replicate (shapeProd (sizes.map PyDimVal.int)) (.pfloat 0)) := by
  unfold np_zeros
  rw [if_pos]
  apply List.all_eq_true.mpr
  intro d hd
  obtain ⟨n, hn, rfl⟩ := List.mem_map.mp hd
  rfl

/-- Assigning numeric cells into a float64 buffer changes nothing and never
fails. -/
theorem mapM_toFloatCell (l : List PyVal) (h : ∀ c ∈ l, isNumericCell c = true) :
    l.mapM toFloatCell = .ok l := by
  induction l with
  | nil => rfl
  | cons c cs ih =>
    rw [List.mapM_cons]
    have hc : toFloatCell c = .ok c := by
      have := h c (by simp)
      cases c <;> simp_all [isNumericCell, toFloatCell]
    rw [hc, ih (fun y hy => h y (by simp [hy]))]
    rfl

theorem fmtCell_ok (v : PyVal) (h : notStrCell v = true) : ∃ s, fmtCell v = .ok s := by
  cases v
  case pstr s => simp [notStrCell] at h
  all_goals exact ⟨_, rfl⟩

theorem mapM_fmtCell_ok (data : List PyVal) (h : ∀ c ∈ data, notStrCell c = true) :
    ∃ l, data.mapM fmtCell = .ok l := by
  induction data with
  | nil => exact ⟨[], rfl⟩
  | cons c cs ih =>
    obtain ⟨s, hs⟩ := fmtCell_ok c (h c (by simp))
    obtain ⟨l, hl⟩ := ih (fun y hy => h y (by simp [hy]))
    exact ⟨s :: l, by rw [List.mapM_cons, hs, hl]; rfl⟩

theorem format_data_array_ok (data : List PyVal) (h : ∀ c ∈ data, notStrCell c = true) :
    ∃ s, _format_data_array data = .ok s := by
  unfold _format_data_array
  cases hlen : (data.length == 0) with
  | true => exact ⟨"", by simp [hlen]⟩
  | false =>
    obtain ⟨l, hl⟩ := mapM_fmtCell_ok data h
    refine ⟨String.intercalate ",\n    " ((toChunks8 l).map (String.intercalate ", ")), ?_⟩
    rw [if_neg (by simp [hlen]), hl]
    rfl

theorem dataLineStep_ok (acc : List String) (p : String × XVar)
    (h : ∀ c ∈ p.2.data, notStrCell c = true) : ∃ ls, dataLineStep acc p = .ok ls := by
  unfold dataLineStep
  by_cases hl : p.2.data.length > 0
  · obtain ⟨s, hs⟩ := format_data_array_ok p.2.data h
    refine ⟨acc ++ ["    " ++ p.1 ++ " = " ++ s ++ ";"], ?_⟩
    rw [if_pos hl, hs]
    rfl
  · exact ⟨acc, by rw [if_neg hl]; rfl⟩

theorem foldlM_dataLineStep_ok : ∀ (pairs : List (String × XVar)) (acc : List String),
    (∀ p ∈ pairs, ∀ c ∈ p.2.data, notStrCell c = true) →
    ∃ ls, List.foldlM dataLineStep acc pairs = .ok ls := by
  intro pairs
  induction pairs with
  | nil => exact fun acc _ => ⟨acc, rfl⟩
  | cons p ps ih =>
    intro acc h
    obtain ⟨ls1, hls1⟩ := dataLineStep_ok acc p (h p (by simp))
    obtain ⟨ls, hls⟩ := ih ls1 (fun y hy => h y (by simp [hy]))
    exact ⟨ls, by rw [List.foldlM_cons, hls1]; simpa [bind, Except.bind] using hls⟩

/-! ### Claims -/

/-- C1: the round trip `assemble(reduce(parse(render(d, "n"))))` is *not*
semantically equal to `d` for every dataset free of zero-length data: the
assembler allocates every buffer with `np.zeros(shape)` and its default
dtype float64, so the int32 variable of `dsInt32` comes back float64; and an
int64 variable renders as the keyword `long`, for which the grammar has no
production, so its round trip fails with a `SyntaxError` already at parse
time.  (The repository's own `test_dumps_loads_roundtrip` test asserts dtype
preservation for the i4/i8 cases.) -/
theorem c1_roundtrip_dtype_lost :
    dumps dsInt32 "n" = .ok cdlInt32 ∧
    pipeline cdlInt32 =
      .ok { dims := [], coords := [],
            data_vars := [("x", { dims := [], dtype := .float64, data := [.pfloat 7], attrs := [] })],
            attrs := [] } ∧
    (lookupA dsInt32.data_vars "x").map XVar.dtype = some .int32 ∧
    Dtype.float64 ≠ Dtype.int32 ∧
    dumps dsInt64 "n" = .ok cdlInt64 ∧
    isSynFail (parse cdlInt64) = true := by
  refine ⟨by decide, by decide, by decide, by decide, by decide, by decide⟩

/-- C2 (counterexample): the serializer is not total — on a validly
constructed dataset holding string data it raises `TypeError`, because
`_format_data_array` applies `np.isnan` to every element. -/
theorem c2_counterexample :
    dumps dsStrData "n" = .error (.typeErr "isnan not supported for str") := by
  decide

/-- C2 (amended): `render(ds, name)` is total and returns a string for every
validly constructed dataset none of whose variables holds string data (any
dtypes and attribute values, including booleans and NaN); the only failure
mode is the `TypeError` from `np.isnan` on string data elements. -/
theorem c2_render_total_without_string_data (ds : XDataset) (name : String)
    (h : ∀ p ∈ ds.coords ++ ds.data_vars, ∀ c ∈ p.2.data, notStrCell c = true) :
    isOkE (dumps ds name) = true := by
  obtain ⟨cl, hcl⟩ := foldlM_dataLineStep_ok ds.coords []
    (fun p hp => h p (List.mem_append_left _ hp))
  obtain ⟨vl, hvl⟩ := foldlM_dataLineStep_ok ds.data_vars []
    (fun p hp => h p (List.mem_append_right _ hp))
  unfold dumps dataLines
  simp [hcl, hvl, bind, Except.bind, isOkE, pure, Except.pure]

/-- C2 (witness): the amended statement applied to a concrete all-numeric
dataset with coordinates, attributes and NaN data. -/
theorem c2_witness : isOkE (dumps dsNumeric "w") = true :=
  c2_render_total_without_string_data dsNumeric "w" (by decide)

/-- C3 (counterexample): reducing a tree whose data section references the
undeclared variable `y` fails with `AssertionError` (the Python `assert`
statement), not with `ReferenceError` as the claim states. -/
theorem c3_counterexample :
    (parse cdlUndeclaredDatum).bind visit = .error .assertionErr ∧
    PyError.assertionErr ≠ PyError.referenceErr := by
  refine ⟨by decide, by decide⟩

/-- C3 (amended): for every reducer state and every `datum` node whose
variable name has no prior declaration, the `datum` visit fails with
`AssertionError` (`assert varname in self._variable_dims`). -/
theorem c3_undeclared_datum_assertion_error (st : VState) (ty v : String)
    (rest : List LItem) (h : lookupA st.variable_dims v = none) :
    visitNode st (.node "datum" (.tok ty v :: rest)) = .error .assertionErr := by
  simp [visitNode, h]

/-- C3 (witness): the amended statement at the initial state and a concrete
`datum` node. -/
theorem c3_witness :
    visitNode initState (.node "datum" [.tok "CNAME" "y", .node "list" []]) =
      .error .assertionErr :=
  c3_undeclared_datum_assertion_error initState "CNAME" "y" [.node "list" []] (by decide)

/-- C4 (counterexample): assembling a declarations set whose variable
references the undeclared dimension `n` fails with `KeyError "n"` (the
Python mapping lookup `self._dims[k]`), not with `ReferenceError` as the
claim states. -/
theorem c4_counterexample :
    generate_dataset declsUnknownDim = .error (.keyErr "n") ∧
    PyError.keyErr "n" ≠ PyError.referenceErr := by
  refine ⟨by decide, by decide⟩

/-- C4 (amended): whenever the first declared variable's dimension-name list
contains a name absent from the dimension table, assembly fails with
`KeyError` naming the first unresolved dimension — it does not silently
default the missing dimension to size 0 or 1. -/
theorem c4_unknown_dimension_raises_keyerror (st : VState) (name : String)
    (pre post : List String) (d : String) (rest : List (String × List String))
    (hvd : st.variable_dims = (name, pre ++ d :: post) :: rest)
    (hpre : ∀ x ∈ pre, (lookupA st.dims x).isSome = true)
    (hd : lookupA st.dims d = none) :
    generate_dataset st = .error (.keyErr d) := by
  have hbv : buildVar st name (pre ++ d :: post) = .error (.keyErr d) := by
    unfold buildVar
    rw [resolveShape_first_missing st.dims pre post d hpre hd]
    rfl
  unfold generate_dataset
  rw [hvd, List.mapM_cons]
  simp [hbv, bind, Except.bind]

/-- C4 (witness): the amended statement at a concrete declarations set where
`b(m, k)` has `m` resolved and `k` unresolved. -/
theorem c4_witness : generate_dataset declsUnknownDim2 = .error (.keyErr "k") :=
  c4_unknown_dimension_raises_keyerror declsUnknownDim2 "b" ["m"] [] "k" []
    rfl (by decide) (by decide)

/-- C5: for every declared variable whose dimension names resolve to integer
sizes (flattened buffer size `k = shapeProd`) and whose supplied literal
data list is numeric with length `m`, assembly succeeds, overlays exactly
the first `n = min(k, m)` flattened positions (row-major: `np.zeros` is
C-ordered and `ravel` is its flattened view) with the first `n` literals in
order, leaves positions `n..k-1` at the fill value 0, and silently ignores
the `m - n` trailing literals — no error for any mismatch between `k` and
`m`. -/
theorem c5_overlay_min_and_fill (st : VState) (name : String) (dimNames : List String)
    (sizes : List ℕ) (data : List PyVal)
    (hshape : resolveShape st.dims dimNames = .ok (sizes.map PyDimVal.int))
    (hdata : lookupA st.variable_data name = some data)
    (hnum : ∀ c ∈ data, isNumericCell c = true) :
    buildVar st name dimNames =
      .ok { dims := dimNames, dtype := .float64,
            data := data.take (min (shapeProd (sizes.map PyDimVal.int)) data.length)
              ++ List.replicate (shapeProd (sizes.map PyDimVal.int)
                  - min (shapeProd (sizes.map PyDimVal.int)) data.length) (.pfloat 0),
            attrs := (lookupA st.variable_attrs (some name)).getD [] } := by
  unfold buildVar
  rw [hshape]
  simp only [bind, Except.bind, np_zeros_ints, hdata]
  unfold overlayData
  simp only [List.length_replicate]
  rw [mapM_toFloatCell _ (fun c hc => hnum c (List.take_subset _ _ hc))]
  simp [bind, Except.bind, List.drop_replicate]

/-- C5 (witness): buffer size 2, data length 3 — the first two literals land
in order and the trailing one is ignored without error. -/
theorem c5_witness :
    buildVar declsOverlay "x" ["n"] =
      .ok { dims := ["n"], dtype := .float64, data := [.pfloat 1, .pfloat 2], attrs := [] } := by
  rw [c5_overlay_min_and_fill declsOverlay "x" ["n"] [2] [.pfloat 1, .pfloat 2, .pfloat 3]
    (by decide) (by decide) (by decide)]
  decide

/-- C6: a data statement containing the `_` placeholder does not keep the
fill value at that position — the anonymous `"_"` token is filtered from the
lark tree, leaving an empty `data_value` node that `parse_value_node` cannot
dispatch on, so the reduction of any such tree aborts with
`ValueError("Cannot parse data_value")` and no array is assembled at all. -/
theorem c6_placeholder_aborts_reduction :
    pipeline cdlUnderscore = .error (.valueErr "Cannot parse data_value") ∧
    cdl_to_dataset cdlUnderscore = .error (.valueErr "Cannot parse data_value") := by
  refine ⟨by decide, by decide⟩

/-- C7: the assembler ignores the declared dtype entirely — the reducer
records the dtype tag `"int64"` for `x`, but the assembled buffer is
float64 (`np.zeros` with no dtype argument), which cannot represent all
64-bit integers exactly.  (The repository's own `test_parse_data_value`
expects `np.float32` in `_variable_dtype` for a `float` declaration and also
fails on this code.) -/
theorem c7_buffer_dtype_ignores_declaration :
    ((parse cdlInt64Decl).bind visit).map (fun st => lookupA st.variable_dtype "x") =
      .ok (some "int64") ∧
    pipeline cdlInt64Decl =
      .ok { dims := [], coords := [],
            data_vars := [("x", { dims := [], dtype := .float64, data := [.pfloat 7], attrs := [] })],
            attrs := [] } ∧
    Dtype.float64 ≠ Dtype.int64 := by
  refine ⟨by decide, by decide, by decide⟩

/-- C8: attribute value formatting — strings are quoted, NaN renders as the
token `NaN`, other numerics render via their decimal text form, but a
boolean renders as `"True"`/`"False"`, not `0`/`1`: `bool` is a subclass of
`int` in Python, so `isinstance(value, (int, float))` captures booleans and
the `str(int(value))` branch of `_format_value` is dead code. -/
theorem c8_bool_attribute_renders_True :
    _format_value (.pstr "a") = "\"a\"" ∧
    _format_value .pnan = "NaN" ∧
    _format_value (.pint 3) = "3" ∧
    _format_value (.pfloat (Rat.divInt 5 2)) = "2.5" ∧
    _format_value (.pbool true) = "True" ∧
    _format_value (.pbool false) = "False" ∧
    "True" ≠ "1" := by
  refine ⟨by decide, by decide, by decide, by decide, by decide, by decide, by decide⟩

/-- C9: the reducer does not survive an `UNLIMITED` dimension size.  The
parse itself succeeds, but the anonymous `"UNLIMITED"` token is filtered
from the tree, leaving an empty `dim_size` tree as `children[1]` of the
`dimension_pair`; the visitor's `children[1].type` access then raises
`AttributeError` (a lark `Tree` has no `type`), so no marker is recorded and
assembly is never reached. -/
theorem c9_unlimited_aborts_reduction :
    isOkE (parse cdlUnlimited) = true ∧
    (parse cdlUnlimited).bind visit = .error (.attributeErr "type") ∧
    pipeline cdlUnlimited = .error (.attributeErr "type") := by
  refine ⟨by decide, by decide, by decide⟩

/-- C10: for every CDL string on which the core pipeline
`assemble(reduce(parse(s)))` succeeds, the public entry point
`cdl_to_dataset` returns `xarray.decode_cf` applied to the assembled
dataset — CF decoding is always applied. -/
theorem c10_decode_cf_always_applied (s : String) (ds : XDataset)
    (h : pipeline s = .ok ds) : cdl_to_dataset s = .ok (decode_cf ds) := by
  rw [cdl_to_dataset_eq_map, h]
  rfl

/-- C10 (witness): the statement at a concrete CDL string with a
`_FillValue` attribute, where the decoding step is observable. -/
theorem c10_witness : cdl_to_dataset cdlFill = .ok (decode_cf dsFill) :=
  c10_decode_cf_always_applied cdlFill dsFill (by decide)

end Cdl
